import Mathlib

/-!
Shallow embedding of the trading-webhook relay server.

The JavaScript sources are embedded as pure Lean functions.  External
effects (the chat API call, the companion HTTP trigger call, the log-file
write, the HTTP response) are recorded as an ordered trace of `Event`s so
that temporal and counting properties of a request can be stated.  The
outcomes of the external collaborators (network replies, current time) are
supplied through a `World` record, and `JSON.parse` is supplied as an
explicit `parse` argument; everything else is translated directly from the
source files.
-/

namespace TradingWebhook

/-- JS truthiness of an optional string-valued field: `undefined` and the
empty string are falsy, every other string is truthy. -/
def truthy : Option String → Bool
  | none => false
  | some s => !(s == "")

/-- JS `x || d` for an optional string field with a string default. -/
def jsOr (v : Option String) (d : String) : String :=
  match v with
  | some s => if s == "" then d else s
  | none => d

/-- JS `s.substring(0, n)`. -/
def jsSubstring (s : String) (n : Nat) : String :=
  String.mk (s.data.take n)

/-- JS `s.endsWith(p)`. -/
def jsEndsWith (s p : String) : Bool :=
  p.data.isSuffixOf s.data

/-- Replace the first occurrence of `pat` (assumed nonempty) by `repl`,
the behaviour of JS `String.prototype.replace` with a string pattern. -/
def listReplaceFirst (pat repl : List Char) : List Char → List Char
  | [] => []
  | c :: rest =>
    if pat.isPrefixOf (c :: rest) then repl ++ (c :: rest).drop pat.length
    else c :: listReplaceFirst pat repl rest

/-- JS `s.replace(pat, repl)` for a nonempty string pattern. -/
def jsReplaceFirst (s pat repl : String) : String :=
  String.mk (listReplaceFirst pat.data repl.data s.data)

/-- `n` occurs as a contiguous substring of `h`. -/
def strInfix (n h : String) : Prop :=
  n.data <:+: h.data

instance (n h : String) : Decidable (strInfix n h) :=
  List.decidableInfix n.data h.data

/-- Environment-derived configuration (`config.js`); each field defaults to
the empty string, which is JS-falsy, modelling an unset variable. -/
structure Config where
  TELEGRAM_BOT_TOKEN : String := ""
  TELEGRAM_CHAT_ID : String := ""
  TRIGGER_CHANNEL_ID : String := ""
  LOCAL_BOT_TRIGGER_URL : String := ""
  deriving DecidableEq

/-- An inbound TradingView alert: an open record whose known string-valued
fields are each optional.  `name` models the `alert` field (alert name). -/
structure Alert where
  ticker : Option String := none
  condition : Option String := none
  price : Option String := none
  time : Option String := none
  name : Option String := none
  message : Option String := none
  prompt : Option String := none
  action : Option String := none
  receivedAt : Option String := none
  deriving DecidableEq

/-- Result object returned by the relay functions. -/
structure RelayResult where
  relayed : Bool := false
  prompt : Option String := none
  ticker : Option String := none
  command : Option String := none
  method : Option String := none
  error : Option String := none
  deriving DecidableEq

/-- Outcome of one outbound network call: the call threw, or the remote
service replied (for the chat API, `ok` is the `ok` field of the reply;
for the HTTP trigger, `ok` is `response.ok`, i.e. HTTP success). -/
inductive NetResult where
  | netThrow (msg : String)
  | reply (ok : Bool)
  deriving DecidableEq

/-- The analysis part of a persisted log entry is the relay result. -/
structure LogData where
  timestamp : String
  alert : Alert
  analysis : RelayResult
  deriving DecidableEq

/-- Observable effects of handling one request, in program order. -/
inductive Event where
  | respond (received : Bool) (timestamp : String)
  | notifierSend (chatId : String) (text : String)
  | netMessage (token : String) (chatId : String) (text : String)
  | httpTrigger (url : String) (payload : String)
  | logWrite (filepath : String) (data : LogData)
  deriving DecidableEq

def Event.isRespond : Event → Bool
  | .respond _ _ => true
  | _ => false

def Event.isLogWrite : Event → Bool
  | .logWrite _ _ => true
  | _ => false

def Event.isNet : Event → Bool
  | .netMessage _ _ _ => true
  | _ => false

/-- The text argument of a Notifier invocation, if the event is one. -/
def Event.notifierText : Event → Option String
  | .notifierSend _ t => some t
  | _ => none

/-- External outcomes consumed by one request: the trigger-endpoint call,
the informational-notice chat call, the main chat call, and the two
`new Date().toISOString()` readings. -/
structure World where
  triggerNet : NetResult := .netThrow "unreachable"
  notifyNet : NetResult := .netThrow "unreachable"
  sendNet : NetResult := .netThrow "unreachable"
  now : String := ""
  logNow : String := ""
  deriving DecidableEq

/-- `telegram.js` `sendToChat`: no call is attempted when the bot token or
the chat id is unconfigured; otherwise the `ok` field of the API reply decides the
result, and a thrown error yields `false`. -/
def sendToChat (cfg : Config) (chatId text : String) (net : NetResult) :
    Bool × List Event :=
  if cfg.TELEGRAM_BOT_TOKEN == "" || chatId == "" then
    (false, [.notifierSend chatId text])
  else
    match net with
    | .netThrow _ =>
        (false, [.notifierSend chatId text,
                 .netMessage cfg.TELEGRAM_BOT_TOKEN chatId text])
    | .reply ok =>
        (ok, [.notifierSend chatId text,
              .netMessage cfg.TELEGRAM_BOT_TOKEN chatId text])

/-- `telegram.js` `sendTelegramMessage`: send to the primary chat. -/
def sendTelegramMessage (cfg : Config) (text : String) (net : NetResult) :
    Bool × List Event :=
  sendToChat cfg cfg.TELEGRAM_CHAT_ID text net

/-- Optional analysis payload: trade-setup parameters. -/
structure Setup where
  type : Option String := none
  entry : Option String := none
  stop : Option String := none
  tp1 : Option String := none
  tp2 : Option String := none
  riskReward : Option String := none
  winRate : Option String := none
  deriving DecidableEq

/-- Optional analysis payload: named indicator values. -/
structure Indicators where
  jewelFast : Option String := none
  jewelSlow : Option String := none
  mgmMomentum : Option String := none
  adx : Option String := none
  deriving DecidableEq

/-- Optional analysis result attached to a notification. -/
structure AnalysisResult where
  setup : Option Setup := none
  indicators : Option Indicators := none
  recommendation : Option String := none
  deriving DecidableEq

/-- `telegram.js` `formatAnalysisMessage`, translated line by line;
`now` stands for `new Date().toISOString()`. -/
def formatAnalysisMessage (alertData : Alert) (analysisResult : Option AnalysisResult)
    (now : String) : String :=
  let ticker := jsOr alertData.ticker "UNKNOWN"
  let condition := jsOr alertData.condition "ALERT"
  let price := jsOr alertData.price "N/A"
  let header :=
    "🚨 *TRADING ALERT: " ++ ticker ++ "*\n\n" ++
    "📊 *Condition:* " ++ condition ++ "\n" ++
    "💰 *Price:* $" ++ price ++ "\n" ++
    "🕐 *Time:* " ++ now ++ "\n\n"
  match analysisResult with
  | none => header ++ "⏳ Analysis pending...\n"
  | some ar =>
    let setupBlock :=
      match ar.setup with
      | some s =>
        "✅ *SETUP FOUND*\n\n" ++
        "📈 *Type:* " ++ jsOr s.type "N/A" ++ "\n" ++
        "🎯 *Entry:* $" ++ jsOr s.entry "N/A" ++ "\n" ++
        "🛑 *Stop:* $" ++ jsOr s.stop "N/A" ++ "\n" ++
        "💎 *TP1:* $" ++ jsOr s.tp1 "N/A" ++ "\n" ++
        "💎 *TP2:* $" ++ jsOr s.tp2 "N/A" ++ "\n" ++
        "📊 *R:R:* " ++ jsOr s.riskReward "N/A" ++ "\n" ++
        "📈 *Win Rate:* " ++ jsOr s.winRate "N/A" ++ "%\n"
      | none => "⚠️ *NO SETUP* - Mixed signals\n"
    let indicatorBlock :=
      match ar.indicators with
      | some i =>
        "\n📉 *Indicators:*\n" ++
        "• Jewel Fast: " ++ jsOr i.jewelFast "N/A" ++ "\n" ++
        "• Jewel Slow: " ++ jsOr i.jewelSlow "N/A" ++ "\n" ++
        "• MGM Momentum: " ++ jsOr i.mgmMomentum "N/A" ++ "\n" ++
        "• ADX: " ++ jsOr i.adx "N/A" ++ "\n"
      | none => ""
    let recommendationBlock :=
      if truthy ar.recommendation then
        "\n💡 *Recommendation:*\n" ++ ar.recommendation.getD "" ++ "\n"
      else ""
    header ++ setupBlock ++ indicatorBlock ++ recommendationBlock

/-- Prompt selection shared by both relay variants (`server.js` and the
HTTP-trigger revision): prefer a truthy `message`, then a truthy `prompt`,
otherwise synthesize from the ticker. -/
def computePrompt (a : Alert) : String :=
  if truthy a.message then a.message.getD ""
  else if truthy a.prompt then a.prompt.getD ""
  else
    let t0 := jsOr a.ticker "SOL"
    let t := if jsEndsWith t0 "USDT" then jsReplaceFirst t0 "USDT" "" else t0
    "Run setup-check skill for " ++ t ++ " 30m"

/-- The `WEBHOOK_PROMPT` marker message built by both relay variants. -/
def markerMessage (prompt alertName time : String) : String :=
  "WEBHOOK_PROMPT:" ++ prompt ++ "\n\n" ++ "---\n" ++
  "📊 Alert: " ++ alertName ++ "\n" ++ "🕐 Time: " ++ time

/-- `server.js` `relayToTelegramBot`: single strategy, marker message to
the primary chat. -/
def relayToTelegramBot (cfg : Config) (alertData : Alert) (w : World) :
    RelayResult × List Event :=
  let prompt := computePrompt alertData
  let time := jsOr alertData.time w.now
  let alertName := jsOr alertData.name "TradingView Alert"
  let r := sendTelegramMessage cfg (markerMessage prompt alertName time) w.sendNet
  if r.1 then
    ({ relayed := true, prompt := some prompt, method := some "telegram" }, r.2)
  else
    ({ relayed := false, error := some "Telegram send failed" }, r.2)

/-- The marker-message fallback tail of `relayToClaudeBot`; `pre` is the
trace accumulated before falling back. -/
def claudeBotFallback (cfg : Config) (prompt alertName time : String) (w : World)
    (pre : List Event) : RelayResult × List Event :=
  let r := sendTelegramMessage cfg (markerMessage prompt alertName time) w.sendNet
  if r.1 then
    ({ relayed := true, prompt := some prompt, method := some "telegram" },
     pre ++ r.2)
  else
    ({ relayed := false, error := some "Both HTTP trigger and Telegram failed" },
     pre ++ r.2)

/-- HTTP-trigger revision `relayToClaudeBot`: try the configured trigger
URL first; on HTTP success send an informational notice and report
`http_trigger`, otherwise fall back to the marker message. -/
def relayToClaudeBot (cfg : Config) (alertData : Alert) (w : World) :
    RelayResult × List Event :=
  let prompt := computePrompt alertData
  let time := jsOr alertData.time w.now
  let alertName := jsOr alertData.name "TradingView Alert"
  if cfg.LOCAL_BOT_TRIGGER_URL == "" then
    claudeBotFallback cfg prompt alertName time w []
  else
    match w.triggerNet with
    | .reply true =>
        let notifyMessage :=
          "🔔 *Webhook Received*\n\n" ++ "📊 Alert: " ++ alertName ++ "\n" ++
          "🕐 Time: " ++ time ++ "\n" ++
          "📝 Prompt: " ++ jsSubstring prompt 100 ++ "..."
        let rn := sendTelegramMessage cfg notifyMessage w.notifyNet
        ({ relayed := true, prompt := some prompt, method := some "http_trigger" },
         .httpTrigger cfg.LOCAL_BOT_TRIGGER_URL prompt :: rn.2)
    | .reply false =>
        claudeBotFallback cfg prompt alertName time w
          [.httpTrigger cfg.LOCAL_BOT_TRIGGER_URL prompt]
    | .netThrow _ =>
        claudeBotFallback cfg prompt alertName time w
          [.httpTrigger cfg.LOCAL_BOT_TRIGGER_URL prompt]

/-- The timestamp sanitizer of `saveToLog`: each colon and dot in the ISO timestamp becomes a dash. -/
def sanitizeTimestamp (s : String) : String :=
  String.mk (s.data.map (fun c => if c == ':' || c == '.' then '-' else c))

/-- Pure content of `saveToLog`: the log filename and the persisted
document; `nowIso` stands for the fresh `new Date().toISOString()`. -/
def saveToLog (alertData : Alert) (analysisResult : RelayResult) (nowIso : String) :
    String × LogData :=
  (sanitizeTimestamp nowIso ++ "_" ++ jsOr alertData.ticker "UNKNOWN" ++
     "_analysis.json",
   { timestamp := nowIso, alert := alertData, analysis := analysisResult })

/-- A request body after the express `json`/`text` middlewares: either a
parsed JSON object or a raw string. -/
inductive ReqBody where
  | str (s : String)
  | obj (a : Alert)

/-- Body parsing in the webhook handler: a string body goes through
`JSON.parse` (modelled by `parse`, `none` meaning the parse threw), and a
parse failure degrades to wrapping the raw text as a `message` field. -/
def parseBody (body : ReqBody) (parse : String → Option Alert) : Alert :=
  match body with
  | .obj a => a
  | .str s =>
    match parse s with
    | some a => a
    | none => { message := some s }

/-- `POST /webhook` of `server.js`: stamp `receivedAt`, respond at once,
then relay and persist. -/
def handleWebhook (cfg : Config) (body : ReqBody) (parse : String → Option Alert)
    (w : World) : List Event :=
  let alertData := { parseBody body parse with receivedAt := some w.now }
  let r := relayToTelegramBot cfg alertData w
  let sl := saveToLog alertData r.1 w.logNow
  .respond true w.now :: (r.2 ++ [.logWrite sl.1 sl.2])

/-- `POST /webhook` of the HTTP-trigger revision: identical handler around
`relayToClaudeBot`. -/
def handleWebhookHttp (cfg : Config) (body : ReqBody) (parse : String → Option Alert)
    (w : World) : List Event :=
  let alertData := { parseBody body parse with receivedAt := some w.now }
  let r := relayToClaudeBot cfg alertData w
  let sl := saveToLog alertData r.1 w.logNow
  .respond true w.now :: (r.2 ++ [.logWrite sl.1 sl.2])

/-- The `GET /` status payload. -/
structure StatusResponse where
  status : String
  service : String
  timestamp : String
  telegram_configured : Bool
  token_length : Nat
  chat_id_length : Nat
  deriving DecidableEq

/-- `GET /` handler. -/
def statusHandler (cfg : Config) (now : String) : StatusResponse :=
  { status := "ok"
    service := "trading-webhook"
    timestamp := now
    telegram_configured :=
      !(cfg.TELEGRAM_BOT_TOKEN == "") && !(cfg.TELEGRAM_CHAT_ID == "")
    token_length :=
      if cfg.TELEGRAM_BOT_TOKEN == "" then 0 else cfg.TELEGRAM_BOT_TOKEN.length
    chat_id_length :=
      if cfg.TELEGRAM_CHAT_ID == "" then 0 else cfg.TELEGRAM_CHAT_ID.length }

/-! ### Helper lemmas about the relay traces -/

lemma sendToChat_countP_respond (cfg : Config) (chatId text : String) (net : NetResult) :
    (sendToChat cfg chatId text net).2.countP Event.isRespond = 0 := by
  unfold sendToChat
  split
  · rfl
  · cases net <;> rfl

lemma sendToChat_countP_logWrite (cfg : Config) (chatId text : String) (net : NetResult) :
    (sendToChat cfg chatId text net).2.countP Event.isLogWrite = 0 := by
  unfold sendToChat
  split
  · rfl
  · cases net <;> rfl

lemma relayToTelegramBot_countP_respond (cfg : Config) (a : Alert) (w : World) :
    (relayToTelegramBot cfg a w).2.countP Event.isRespond = 0 := by
  unfold relayToTelegramBot sendTelegramMessage
  dsimp only
  split <;> exact sendToChat_countP_respond _ _ _ _

lemma relayToTelegramBot_countP_logWrite (cfg : Config) (a : Alert) (w : World) :
    (relayToTelegramBot cfg a w).2.countP Event.isLogWrite = 0 := by
  unfold relayToTelegramBot sendTelegramMessage
  dsimp only
  split <;> exact sendToChat_countP_logWrite _ _ _ _

lemma claudeBotFallback_countP_respond (cfg : Config) (p n t : String) (w : World)
    (pre : List Event) (hp : pre.countP Event.isRespond = 0) :
    (claudeBotFallback cfg p n t w pre).2.countP Event.isRespond = 0 := by
  unfold claudeBotFallback sendTelegramMessage
  dsimp only
  split <;> simp [List.countP_append, hp, sendToChat_countP_respond]

lemma claudeBotFallback_countP_logWrite (cfg : Config) (p n t : String) (w : World)
    (pre : List Event) (hp : pre.countP Event.isLogWrite = 0) :
    (claudeBotFallback cfg p n t w pre).2.countP Event.isLogWrite = 0 := by
  unfold claudeBotFallback sendTelegramMessage
  dsimp only
  split <;> simp [List.countP_append, hp, sendToChat_countP_logWrite]

lemma relayToClaudeBot_countP_respond (cfg : Config) (a : Alert) (w : World) :
    (relayToClaudeBot cfg a w).2.countP Event.isRespond = 0 := by
  unfold relayToClaudeBot
  dsimp only
  split
  · exact claudeBotFallback_countP_respond _ _ _ _ _ _ rfl
  · split
    · simp [sendTelegramMessage, List.countP_cons, sendToChat_countP_respond,
        Event.isRespond]
    · exact claudeBotFallback_countP_respond _ _ _ _ _ _ rfl
    · exact claudeBotFallback_countP_respond _ _ _ _ _ _ rfl

lemma relayToClaudeBot_countP_logWrite (cfg : Config) (a : Alert) (w : World) :
    (relayToClaudeBot cfg a w).2.countP Event.isLogWrite = 0 := by
  unfold relayToClaudeBot
  dsimp only
  split
  · exact claudeBotFallback_countP_logWrite _ _ _ _ _ _ rfl
  · split
    · simp [sendTelegramMessage, List.countP_cons, sendToChat_countP_logWrite,
        Event.isLogWrite]
    · exact claudeBotFallback_countP_logWrite _ _ _ _ _ _ rfl
    · exact claudeBotFallback_countP_logWrite _ _ _ _ _ _ rfl

/-! ### Claim theorems -/

/-- C1: for every alert posted to `POST /webhook`, the handler emits the
`(received := true, timestamp)` response as the very first event of the
request trace — the relay dispatch and the log write only appear after it —
and no further response event ever occurs, so the background outcome is
never reported to the caller.  This holds for both handler revisions. -/
theorem c1_response_before_background (cfg : Config) (body : ReqBody)
    (parse : String → Option Alert) (w : World) :
    (∃ rest, handleWebhook cfg body parse w = Event.respond true w.now :: rest
        ∧ rest.countP Event.isRespond = 0)
    ∧ (∃ rest, handleWebhookHttp cfg body parse w = Event.respond true w.now :: rest
        ∧ rest.countP Event.isRespond = 0) := by
  constructor
  · refine ⟨_, rfl, ?_⟩
    simp [List.countP_append, relayToTelegramBot_countP_respond, Event.isRespond]
  · refine ⟨_, rfl, ?_⟩
    simp [List.countP_append, relayToClaudeBot_countP_respond, Event.isRespond]

/-- C2: every request to `POST /webhook` produces exactly one `saveToLog`
invocation (one log write event), whatever the relay outcome is, in both
handler revisions. -/
theorem c2_exactly_one_log_write (cfg : Config) (body : ReqBody)
    (parse : String → Option Alert) (w : World) :
    (handleWebhook cfg body parse w).countP Event.isLogWrite = 1
    ∧ (handleWebhookHttp cfg body parse w).countP Event.isLogWrite = 1 := by
  constructor
  · show (Event.respond true w.now :: (_ ++ [Event.logWrite _ _])).countP _ = 1
    simp [List.countP_append, relayToTelegramBot_countP_logWrite,
      Event.isLogWrite]
  · show (Event.respond true w.now :: (_ ++ [Event.logWrite _ _])).countP _ = 1
    simp [List.countP_append, relayToClaudeBot_countP_logWrite,
      Event.isLogWrite]

/-- C3: a string body that fails to parse as JSON never causes a rejection:
the alert becomes exactly the object with the raw string as its `message`
field plus the stamped `receivedAt`, the handler still responds
`(received := true, timestamp)`, and relay and logging proceed on that
object. -/
theorem c3_parse_failure_degrades (cfg : Config) (s : String)
    (parse : String → Option Alert) (w : World) (h : parse s = none) :
    parseBody (.str s) parse = { message := some s }
    ∧ ∃ r, handleWebhook cfg (.str s) parse w
        = Event.respond true w.now ::
            ((relayToTelegramBot cfg { message := some s, receivedAt := some w.now } w).2
              ++ [Event.logWrite
                    (saveToLog { message := some s, receivedAt := some w.now } r w.logNow).1
                    (saveToLog { message := some s, receivedAt := some w.now } r w.logNow).2]) := by
  have hp : parseBody (.str s) parse = { message := some s } := by
    simp [parseBody, h]
  refine ⟨hp,
    (relayToTelegramBot cfg { message := some s, receivedAt := some w.now } w).1, ?_⟩
  have ha : ({ parseBody (.str s) parse with receivedAt := some w.now } : Alert)
      = { message := some s, receivedAt := some w.now } := by
    rw [hp]
  show Event.respond true w.now ::
      ((relayToTelegramBot cfg { parseBody (.str s) parse with receivedAt := some w.now } w).2
        ++ [Event.logWrite _ _]) = _
  rw [ha]

theorem c3_witness :
    parseBody (.str "not json") (fun _ => none) = { message := some "not json" } :=
  (c3_parse_failure_degrades {} "not json" (fun _ => none)
    { now := "T1", logNow := "T2" } rfl).1

/-- C10: the handler overwrites `receivedAt` with the reception time for
every body — including bodies that already carried a `receivedAt` — and the
timestamp of the acknowledgement equals the `receivedAt` stored in the
alert object that is passed to the relay and persisted in the log file. -/
theorem c10_receivedAt_overwritten (cfg : Config) (body : ReqBody)
    (parse : String → Option Alert) (w : World) :
    ∃ r : RelayResult,
      handleWebhook cfg body parse w
        = Event.respond true w.now ::
            ((relayToTelegramBot cfg { parseBody body parse with receivedAt := some w.now } w).2
              ++ [Event.logWrite
                    (saveToLog { parseBody body parse with receivedAt := some w.now } r w.logNow).1
                    (saveToLog { parseBody body parse with receivedAt := some w.now } r w.logNow).2])
      ∧ (saveToLog { parseBody body parse with receivedAt := some w.now } r w.logNow).2.alert.receivedAt
          = some w.now :=
  ⟨(relayToTelegramBot cfg { parseBody body parse with receivedAt := some w.now } w).1,
    rfl, rfl⟩

lemma sendToChat_fst (cfg : Config) (chatId text : String) (net : NetResult) :
    (sendToChat cfg chatId text net).1 = true
      ↔ (cfg.TELEGRAM_BOT_TOKEN ≠ "" ∧ chatId ≠ "" ∧ net = .reply true) := by
  unfold sendToChat
  rcases net with e | ok <;>
    by_cases h1 : cfg.TELEGRAM_BOT_TOKEN = "" <;>
    by_cases h2 : chatId = "" <;>
    simp [h1, h2]

/-- C6: the Notifier send is total (it returns a boolean, never an
exception): it returns `true` exactly when credentials are configured and
the remote API replied `ok`, and when the token or chat id is unconfigured
it performs no network call at all. -/
theorem c6_notifier_never_throws (cfg : Config) (chatId text : String) (net : NetResult) :
    ((sendToChat cfg chatId text net).1 = true
        ↔ (cfg.TELEGRAM_BOT_TOKEN ≠ "" ∧ chatId ≠ "" ∧ net = .reply true))
    ∧ ((cfg.TELEGRAM_BOT_TOKEN = "" ∨ chatId = "") →
        (sendToChat cfg chatId text net).2.countP Event.isNet = 0) := by
  constructor
  · exact sendToChat_fst cfg chatId text net
  · intro h
    unfold sendToChat
    have hb : (cfg.TELEGRAM_BOT_TOKEN == "" || chatId == "") = true := by
      rcases h with h | h <;> simp [h]
    rw [if_pos hb]
    rfl

theorem c6_witness :
    (sendToChat {} "some-chat" "hello" (.reply true)).2.countP Event.isNet = 0 :=
  (c6_notifier_never_throws {} "some-chat" "hello" (.reply true)).2 (Or.inl rfl)

lemma string_eq_empty_iff_length (s : String) : s = "" ↔ s.length = 0 := by
  constructor
  · intro h
    subst h
    rfl
  · intro h
    exact String.ext (List.length_eq_zero.mp h)

lemma beq_empty_congr_of_length {s t : String} (h : s.length = t.length) :
    (s == "") = (t == "") := by
  by_cases hs : s = ""
  · have ht : t = "" := by
      rw [string_eq_empty_iff_length, ← h, ← string_eq_empty_iff_length]
      exact hs
    simp [hs, ht]
  · have ht : t ≠ "" := by
      intro hte
      exact hs (by
        rw [string_eq_empty_iff_length, h, ← string_eq_empty_iff_length]
        exact hte)
    simp [hs, ht]

/-- C9: the status probe reports credential configuration as a boolean
(`telegram_configured` is `true` exactly when both credentials are set),
and the response is a function of the credential lengths alone — two
configurations whose secrets have the same lengths produce identical
responses, so the secret value itself never appears in the response. -/
theorem c9_status_no_secret (cfg cfg2 : Config) (now : String) :
    ((statusHandler cfg now).telegram_configured = true
        ↔ (cfg.TELEGRAM_BOT_TOKEN ≠ "" ∧ cfg.TELEGRAM_CHAT_ID ≠ ""))
    ∧ (cfg.TELEGRAM_BOT_TOKEN.length = cfg2.TELEGRAM_BOT_TOKEN.length →
        cfg.TELEGRAM_CHAT_ID.length = cfg2.TELEGRAM_CHAT_ID.length →
        statusHandler cfg now = statusHandler cfg2 now) := by
  constructor
  · simp [statusHandler]
  · intro h1 h2
    have e1 := beq_empty_congr_of_length h1
    have e2 := beq_empty_congr_of_length h2
    simp only [statusHandler, e1, e2, h1, h2]

theorem c9_witness :
    statusHandler { TELEGRAM_BOT_TOKEN := "secret-aaa", TELEGRAM_CHAT_ID := "1111" } "T"
      = statusHandler { TELEGRAM_BOT_TOKEN := "secret-bbb", TELEGRAM_CHAT_ID := "2222" } "T" :=
  (c9_status_no_secret { TELEGRAM_BOT_TOKEN := "secret-aaa", TELEGRAM_CHAT_ID := "1111" }
    { TELEGRAM_BOT_TOKEN := "secret-bbb", TELEGRAM_CHAT_ID := "2222" } "T").2 rfl rfl

/-- A message is a marker-based trigger message when it starts with the
`WEBHOOK_PROMPT:` marker. -/
def markerPrefixed (s : String) : Bool :=
  "WEBHOOK_PROMPT:".data.isPrefixOf s.data

lemma sendToChat_notifierTexts (cfg : Config) (chatId text : String) (net : NetResult) :
    (sendToChat cfg chatId text net).2.filterMap Event.notifierText = [text] := by
  unfold sendToChat
  split
  · rfl
  · cases net <;> rfl

lemma markerPrefixed_notify (alertName time pr : String) :
    markerPrefixed ("🔔 *Webhook Received*\n\n📊 Alert: " ++ alertName ++ "\n" ++
      "🕐 Time: " ++ time ++ "\n" ++ "📝 Prompt: " ++ pr ++ "...") = false := by
  unfold markerPrefixed
  simp only [String.data_append, List.append_assoc, List.cons_append]
  rfl

/-- C4: when the companion trigger URL is configured and the POST to it
returns HTTP success, `relayToClaudeBot` reports
`relayed = true, method = "http_trigger"`, invokes the Notifier exactly
once with an informational notice that does not carry the
`WEBHOOK_PROMPT:` marker, and never sends the marker-based fallback
message. -/
theorem c4_http_trigger_preferred (cfg : Config) (a : Alert) (w : World)
    (h1 : cfg.LOCAL_BOT_TRIGGER_URL ≠ "") (h2 : w.triggerNet = .reply true) :
    (relayToClaudeBot cfg a w).1.relayed = true
    ∧ (relayToClaudeBot cfg a w).1.method = some "http_trigger"
    ∧ (relayToClaudeBot cfg a w).1.prompt = some (computePrompt a)
    ∧ ((relayToClaudeBot cfg a w).2.filterMap Event.notifierText).length = 1
    ∧ ((relayToClaudeBot cfg a w).2.filterMap Event.notifierText).all
        (fun t => !(markerPrefixed t)) = true := by
  have hb : (cfg.LOCAL_BOT_TRIGGER_URL == "") = false := by
    simp [h1]
  unfold relayToClaudeBot
  dsimp only
  rw [hb, h2]
  refine ⟨rfl, rfl, rfl, ?_, ?_⟩
  · simp [sendTelegramMessage, List.filterMap_cons, Event.notifierText,
      sendToChat_notifierTexts]
  · simp [sendTelegramMessage, List.filterMap_cons, Event.notifierText,
      sendToChat_notifierTexts, markerPrefixed_notify]

theorem c4_witness :
    (relayToClaudeBot { LOCAL_BOT_TRIGGER_URL := "http://bot.local" } {}
        { triggerNet := .reply true }).1.method = some "http_trigger" :=
  (c4_http_trigger_preferred { LOCAL_BOT_TRIGGER_URL := "http://bot.local" } {}
    { triggerNet := .reply true } (by decide) rfl).2.1

lemma claudeBotFallback_spec (cfg : Config) (p n t : String) (w : World)
    (pre : List Event) :
    ((cfg.TELEGRAM_BOT_TOKEN ≠ "" ∧ cfg.TELEGRAM_CHAT_ID ≠ "" ∧ w.sendNet = .reply true) →
      (claudeBotFallback cfg p n t w pre).1
        = { relayed := true, prompt := some p, method := some "telegram" })
    ∧ (¬(cfg.TELEGRAM_BOT_TOKEN ≠ "" ∧ cfg.TELEGRAM_CHAT_ID ≠ "" ∧ w.sendNet = .reply true) →
      (claudeBotFallback cfg p n t w pre).1
        = { relayed := false, error := some "Both HTTP trigger and Telegram failed" }) := by
  unfold claudeBotFallback sendTelegramMessage
  dsimp only
  by_cases hc : cfg.TELEGRAM_BOT_TOKEN ≠ "" ∧ cfg.TELEGRAM_CHAT_ID ≠ ""
      ∧ w.sendNet = .reply true
  · have ht : (sendToChat cfg cfg.TELEGRAM_CHAT_ID (markerMessage p n t) w.sendNet).1
        = true :=
      (sendToChat_fst cfg cfg.TELEGRAM_CHAT_ID (markerMessage p n t) w.sendNet).mpr hc
    rw [if_pos ht]
    exact ⟨fun _ => rfl, fun h => absurd hc h⟩
  · have ht : ¬(sendToChat cfg cfg.TELEGRAM_CHAT_ID (markerMessage p n t) w.sendNet).1
        = true := fun h =>
      hc ((sendToChat_fst cfg cfg.TELEGRAM_CHAT_ID (markerMessage p n t) w.sendNet).mp h)
    rw [if_neg ht]
    exact ⟨fun h => absurd h hc, fun _ => rfl⟩

/-- C5 counterexample: with the trigger URL unset and a successful
Notifier send, the `method` of the fallback result is the string `"telegram"`,
not `"message_fallback"` as the claim states. -/
theorem c5_counterexample :
    (relayToClaudeBot { TELEGRAM_BOT_TOKEN := "tok", TELEGRAM_CHAT_ID := "chat" } {}
        { sendNet := .reply true }).1.relayed = true
    ∧ (relayToClaudeBot { TELEGRAM_BOT_TOKEN := "tok", TELEGRAM_CHAT_ID := "chat" } {}
        { sendNet := .reply true }).1.method ≠ some "message_fallback" := by
  constructor
  · rfl
  · decide

/-- C5 (amended): when the direct HTTP trigger is unavailable (URL unset)
or failed (no HTTP-success reply), `relayToClaudeBot` uses the
marker-message fallback: on a successful Notifier send the result is
`relayed = true` with `method = "telegram"` (the identifier the code uses
for the message fallback), and when the fallback send also fails it is
`relayed = false` with the aggregated error
`"Both HTTP trigger and Telegram failed"`. -/
theorem c5_fallback_method (cfg : Config) (a : Alert) (w : World)
    (h : cfg.LOCAL_BOT_TRIGGER_URL = "" ∨ w.triggerNet ≠ .reply true) :
    ((cfg.TELEGRAM_BOT_TOKEN ≠ "" ∧ cfg.TELEGRAM_CHAT_ID ≠ "" ∧ w.sendNet = .reply true) →
      (relayToClaudeBot cfg a w).1
        = { relayed := true, prompt := some (computePrompt a), method := some "telegram" })
    ∧ (¬(cfg.TELEGRAM_BOT_TOKEN ≠ "" ∧ cfg.TELEGRAM_CHAT_ID ≠ "" ∧ w.sendNet = .reply true) →
      (relayToClaudeBot cfg a w).1
        = { relayed := false, error := some "Both HTTP trigger and Telegram failed" }) := by
  unfold relayToClaudeBot
  dsimp only
  by_cases hu : cfg.LOCAL_BOT_TRIGGER_URL = ""
  · rw [show (cfg.LOCAL_BOT_TRIGGER_URL == "") = true by simp [hu]]
    exact claudeBotFallback_spec cfg _ _ _ w []
  · rw [show (cfg.LOCAL_BOT_TRIGGER_URL == "") = false by simp [hu]]
    have hn : w.triggerNet ≠ .reply true := by
      rcases h with h | h
      · exact absurd h hu
      · exact h
    rcases htr : w.triggerNet with e | ok
    · exact claudeBotFallback_spec cfg _ _ _ w _
    · cases ok
      · exact claudeBotFallback_spec cfg _ _ _ w _
      · exact absurd htr hn

theorem c5_witness :
    (relayToClaudeBot { TELEGRAM_BOT_TOKEN := "tok", TELEGRAM_CHAT_ID := "chat" } {}
        { sendNet := .reply true }).1
      = { relayed := true, prompt := some (computePrompt {}), method := some "telegram" } :=
  (c5_fallback_method { TELEGRAM_BOT_TOKEN := "tok", TELEGRAM_CHAT_ID := "chat" } {}
      { sendNet := .reply true } (Or.inl rfl)).1 ⟨by decide, by decide, rfl⟩

lemma infixOfPrefix {α : Type} {l₁ l₂ : List α} (h : l₁ <+: l₂) : l₁ <:+: l₂ := by
  rcases h with ⟨t, ht⟩
  exact ⟨[], t, by simpa using ht⟩

lemma prefixOfIsPrefixOf {α : Type} [BEq α] [LawfulBEq α] {l₁ l₂ : List α}
    (h : l₁.isPrefixOf l₂ = true) : l₁ <+: l₂ := by
  simpa using h

lemma isPrefixOfOfPrefix {α : Type} [BEq α] [LawfulBEq α] {l₁ l₂ : List α}
    (h : l₁ <+: l₂) : l₁.isPrefixOf l₂ = true := by
  simpa using h

/-- When `pat` occurs in `l` only as its final suffix, replacing the first
occurrence of `pat` by nothing removes exactly that suffix. -/
lemma listReplaceFirst_suffix (pat : List Char) (hne : pat ≠ []) :
    ∀ l : List Char, pat <:+ l → ¬ pat <:+: l.dropLast →
      listReplaceFirst pat [] l = l.take (l.length - pat.length) := by
  intro l
  induction l with
  | nil =>
    intro hsuf _
    exact absurd (List.suffix_nil.mp hsuf) hne
  | cons c rest ih =>
    intro hsuf hnot
    simp only [listReplaceFirst]
    by_cases hp : pat.isPrefixOf (c :: rest) = true
    · rw [if_pos hp]
      have hpre : pat <+: c :: rest := prefixOfIsPrefixOf hp
      have hlen : pat.length ≤ rest.length + 1 := by
        have := hpre.length_le
        simpa using this
      rcases Nat.lt_or_ge pat.length (rest.length + 1) with hlt | hge
      · exfalso
        apply hnot
        apply infixOfPrefix
        rw [List.dropLast_eq_take]
        have heq : pat = (c :: rest).take pat.length :=
          List.prefix_iff_eq_take.mp hpre
        rw [heq]
        exact List.take_prefix_take_left _ (by
          simp only [List.length_cons]
          omega)
      · have hlen2 : pat.length = rest.length + 1 :=
          Nat.le_antisymm hlen hge
        have hpl : pat = c :: rest := hpre.eq_of_length (by simpa using hlen2)
        rw [hpl]
        simp
    · rw [if_neg hp]
      have hsr : pat <:+ rest := by
        rcases hsuf with ⟨m, hm⟩
        cases m with
        | nil =>
          exfalso
          apply hp
          rw [List.nil_append] at hm
          rw [hm]
          exact isPrefixOfOfPrefix (List.prefix_refl _)
        | cons d m2 =>
          rw [List.cons_append] at hm
          injection hm with h1 h2
          exact ⟨m2, h2⟩
      have hrne : rest ≠ [] := by
        intro he
        rw [he] at hsr
        exact hne (List.suffix_nil.mp hsr)
      have hnot2 : ¬ pat <:+: rest.dropLast := by
        intro hin
        apply hnot
        rw [List.dropLast_cons_of_ne_nil hrne]
        exact List.infix_cons hin
      rw [ih hsr hnot2]
      have hple : pat.length ≤ rest.length := hsr.length_le
      rw [List.length_cons, Nat.succ_sub hple, List.take_succ_cons]

lemma jsReplaceFirst_strip (t : String) (hend : jsEndsWith t "USDT" = true)
    (hnot : ¬ ("USDT".data <:+: t.data.dropLast)) :
    jsReplaceFirst t "USDT" "" = String.mk (t.data.take (t.data.length - 4)) := by
  unfold jsReplaceFirst
  have hsuf : "USDT".data <:+ t.data := by
    unfold jsEndsWith at hend
    simpa using hend
  rw [show ("" : String).data = [] from rfl]
  rw [listReplaceFirst_suffix "USDT".data (by decide) t.data hsuf hnot]
  rfl

/-- Comparison definition following the words of the spec: the quote-currency
suffix `USDT` stripped from the ticker when the ticker ends with it. -/
def specStripQuoteSuffix (t : String) : String :=
  if jsEndsWith t "USDT" then String.mk (t.data.take (t.data.length - 4)) else t

/-- C8 counterexample: for the ticker `AUSDTBUSDT` (no message/prompt
field) the synthesized prompt is not the fixed template applied to the
suffix-stripped ticker: the code removes the *first* occurrence of
`USDT`, producing `ABUSDT` instead of `AUSDTB`. -/
theorem c8_counterexample :
    computePrompt { ticker := some "AUSDTBUSDT" }
      ≠ "Run setup-check skill for " ++ specStripQuoteSuffix "AUSDTBUSDT" ++ " 30m" := by
  decide

/-- C8 (amended): the outbound prompt prefers a non-empty `message` field,
then a non-empty `prompt` field; otherwise it is the fixed template
`Run setup-check skill for <t> 30m` where `<t>` is the ticker (default
`SOL` when absent or empty), kept as is when it does not end with `USDT`,
and with the first occurrence of `USDT` removed when it does — which
coincides with stripping the `USDT` suffix whenever `USDT` occurs in the
ticker only at its end. -/
theorem c8_prompt_selection (a : Alert) :
    (truthy a.message = true → computePrompt a = a.message.getD "")
    ∧ (truthy a.message = false → truthy a.prompt = true →
        computePrompt a = a.prompt.getD "")
    ∧ (truthy a.message = false → truthy a.prompt = false →
        jsEndsWith (jsOr a.ticker "SOL") "USDT" = false →
        computePrompt a = "Run setup-check skill for " ++ jsOr a.ticker "SOL" ++ " 30m")
    ∧ (truthy a.message = false → truthy a.prompt = false →
        jsEndsWith (jsOr a.ticker "SOL") "USDT" = true →
        ¬ ("USDT".data <:+: (jsOr a.ticker "SOL").data.dropLast) →
        computePrompt a
          = "Run setup-check skill for " ++ specStripQuoteSuffix (jsOr a.ticker "SOL")
              ++ " 30m") := by
  refine ⟨fun h => by simp [computePrompt, h],
    fun h1 h2 => by simp [computePrompt, h1, h2],
    fun h1 h2 h3 => by simp [computePrompt, h1, h2, h3],
    fun h1 h2 h3 h4 => ?_⟩
  have hr := jsReplaceFirst_strip (jsOr a.ticker "SOL") h3 h4
  simp [computePrompt, h1, h2, h3, hr, specStripQuoteSuffix]

theorem c8_witness :
    computePrompt { ticker := some "SOLUSDT" }
      = "Run setup-check skill for " ++ specStripQuoteSuffix (jsOr (some "SOLUSDT") "SOL")
          ++ " 30m" :=
  (c8_prompt_selection { ticker := some "SOLUSDT" }).2.2.2 rfl rfl (by decide) (by decide)

/-! ### Spec-side decomposition of the formatted notification

Definitions following the section vocabulary of the spec (header, setup block
or no-setup notice, indicator block, recommendation, pending notice), to
be compared with the code-side `formatAnalysisMessage`. -/

namespace Fmt

def header (a : Alert) (now : String) : String :=
  "🚨 *TRADING ALERT: " ++ jsOr a.ticker "UNKNOWN" ++ "*\n\n" ++
  "📊 *Condition:* " ++ jsOr a.condition "ALERT" ++ "\n" ++
  "💰 *Price:* $" ++ jsOr a.price "N/A" ++ "\n" ++
  "🕐 *Time:* " ++ now ++ "\n\n"

def pendingNotice : String := "⏳ Analysis pending...\n"

def setupBlock : Option Setup → String
  | some s =>
    "✅ *SETUP FOUND*\n\n" ++
    "📈 *Type:* " ++ jsOr s.type "N/A" ++ "\n" ++
    "🎯 *Entry:* $" ++ jsOr s.entry "N/A" ++ "\n" ++
    "🛑 *Stop:* $" ++ jsOr s.stop "N/A" ++ "\n" ++
    "💎 *TP1:* $" ++ jsOr s.tp1 "N/A" ++ "\n" ++
    "💎 *TP2:* $" ++ jsOr s.tp2 "N/A" ++ "\n" ++
    "📊 *R:R:* " ++ jsOr s.riskReward "N/A" ++ "\n" ++
    "📈 *Win Rate:* " ++ jsOr s.winRate "N/A" ++ "%\n"
  | none => "⚠️ *NO SETUP* - Mixed signals\n"

def indicatorBlock : Option Indicators → String
  | some i =>
    "\n📉 *Indicators:*\n" ++
    "• Jewel Fast: " ++ jsOr i.jewelFast "N/A" ++ "\n" ++
    "• Jewel Slow: " ++ jsOr i.jewelSlow "N/A" ++ "\n" ++
    "• MGM Momentum: " ++ jsOr i.mgmMomentum "N/A" ++ "\n" ++
    "• ADX: " ++ jsOr i.adx "N/A" ++ "\n"
  | none => ""

def recommendationBlock (r : Option String) : String :=
  if truthy r then "\n💡 *Recommendation:*\n" ++ r.getD "" ++ "\n" else ""

end Fmt

lemma jsOr_none (d : String) : jsOr none d = d := rfl

lemma strInfix_appendL (n s t : String) (h : strInfix n t) : strInfix n (s ++ t) := by
  rcases h with ⟨u, v, huv⟩
  refine ⟨s.data ++ u, v, ?_⟩
  rw [String.data_append, ← huv]
  simp [List.append_assoc]

lemma strInfix_appendR (n s t : String) (h : strInfix n s) : strInfix n (s ++ t) := by
  rcases h with ⟨u, v, huv⟩
  refine ⟨u, v ++ t.data, ?_⟩
  rw [String.data_append, ← huv]
  simp [List.append_assoc]

lemma strInfix_of_decomp (n h pre post : String)
    (he : h.data = pre.data ++ n.data ++ post.data) :
    strInfix n h :=
  ⟨pre.data, post.data, he.symm⟩

lemma formatDecomp_none (a : Alert) (now : String) :
    formatAnalysisMessage a none now = Fmt.header a now ++ Fmt.pendingNotice := rfl

lemma formatDecomp_some (a : Alert) (ar : AnalysisResult) (now : String) :
    formatAnalysisMessage a (some ar) now
      = Fmt.header a now ++ Fmt.setupBlock ar.setup ++ Fmt.indicatorBlock ar.indicators
          ++ Fmt.recommendationBlock ar.recommendation := by
  rcases ar with ⟨s, i, r⟩
  cases s <;> cases i <;> rfl

lemma strInfix_format_header (n : String) (a : Alert) (o : Option AnalysisResult)
    (now : String) (h : strInfix n (Fmt.header a now)) :
    strInfix n (formatAnalysisMessage a o now) := by
  cases o with
  | none =>
    rw [formatDecomp_none]
    exact strInfix_appendR _ _ _ h
  | some ar =>
    rw [formatDecomp_some]
    exact strInfix_appendR _ _ _ (strInfix_appendR _ _ _ (strInfix_appendR _ _ _ h))

lemma strInfix_format_setup (n : String) (a : Alert) (ar : AnalysisResult)
    (now : String) (h : strInfix n (Fmt.setupBlock ar.setup)) :
    strInfix n (formatAnalysisMessage a (some ar) now) := by
  rw [formatDecomp_some]
  exact strInfix_appendR _ _ _ (strInfix_appendR _ _ _ (strInfix_appendL _ _ _ h))

lemma strInfix_format_ind (n : String) (a : Alert) (ar : AnalysisResult)
    (now : String) (h : strInfix n (Fmt.indicatorBlock ar.indicators)) :
    strInfix n (formatAnalysisMessage a (some ar) now) := by
  rw [formatDecomp_some]
  exact strInfix_appendR _ _ _ (strInfix_appendL _ _ _ h)

/-- C7: `formatAnalysisMessage` is total and never fails: the output is
the header followed, in fixed order, by the setup block (or the no-setup
notice), the indicator block and the recommendation; with no analysis
result the output is the header plus the pending notice (setup and
indicator sections omitted); with a setup but no indicators the indicator
section is omitted; and every missing field independently renders as its
placeholder token. -/
theorem c7_formatting_never_fails (a : Alert) (ar : AnalysisResult)
    (o : Option AnalysisResult) (now : String) :
    (formatAnalysisMessage a none now = Fmt.header a now ++ Fmt.pendingNotice)
    ∧ (formatAnalysisMessage a (some ar) now
        = Fmt.header a now ++ Fmt.setupBlock ar.setup
            ++ Fmt.indicatorBlock ar.indicators
            ++ Fmt.recommendationBlock ar.recommendation)
    ∧ (ar.indicators = none → formatAnalysisMessage a (some ar) now
        = Fmt.header a now ++ Fmt.setupBlock ar.setup
            ++ Fmt.recommendationBlock ar.recommendation)
    ∧ (a.ticker = none →
        strInfix "🚨 *TRADING ALERT: UNKNOWN*\n\n" (formatAnalysisMessage a o now))
    ∧ (a.condition = none →
        strInfix "📊 *Condition:* ALERT\n" (formatAnalysisMessage a o now))
    ∧ (a.price = none →
        strInfix "💰 *Price:* $N/A\n" (formatAnalysisMessage a o now))
    ∧ (∀ s, ar.setup = some s → s.type = none →
        strInfix "📈 *Type:* N/A\n" (formatAnalysisMessage a (some ar) now))
    ∧ (∀ s, ar.setup = some s → s.entry = none →
        strInfix "🎯 *Entry:* $N/A\n" (formatAnalysisMessage a (some ar) now))
    ∧ (∀ s, ar.setup = some s → s.stop = none →
        strInfix "🛑 *Stop:* $N/A\n" (formatAnalysisMessage a (some ar) now))
    ∧ (∀ s, ar.setup = some s → s.tp1 = none →
        strInfix "💎 *TP1:* $N/A\n" (formatAnalysisMessage a (some ar) now))
    ∧ (∀ s, ar.setup = some s → s.tp2 = none →
        strInfix "💎 *TP2:* $N/A\n" (formatAnalysisMessage a (some ar) now))
    ∧ (∀ s, ar.setup = some s → s.riskReward = none →
        strInfix "📊 *R:R:* N/A\n" (formatAnalysisMessage a (some ar) now))
    ∧ (∀ s, ar.setup = some s → s.winRate = none →
        strInfix "📈 *Win Rate:* N/A%\n" (formatAnalysisMessage a (some ar) now))
    ∧ (∀ i, ar.indicators = some i → i.jewelFast = none →
        strInfix "• Jewel Fast: N/A\n" (formatAnalysisMessage a (some ar) now))
    ∧ (∀ i, ar.indicators = some i → i.jewelSlow = none →
        strInfix "• Jewel Slow: N/A\n" (formatAnalysisMessage a (some ar) now))
    ∧ (∀ i, ar.indicators = some i → i.mgmMomentum = none →
        strInfix "• MGM Momentum: N/A\n" (formatAnalysisMessage a (some ar) now))
    ∧ (∀ i, ar.indicators = some i → i.adx = none →
        strInfix "• ADX: N/A\n" (formatAnalysisMessage a (some ar) now)) := by
  refine ⟨formatDecomp_none a now, formatDecomp_some a ar now, ?_, ?_, ?_, ?_,
    ?_, ?_, ?_, ?_, ?_, ?_, ?_, ?_, ?_, ?_, ?_⟩
  · intro h
    rw [formatDecomp_some, h]
    simp [Fmt.indicatorBlock]
  · intro h
    apply strInfix_format_header
    exact strInfix_of_decomp _ _ ""
      ("📊 *Condition:* " ++ jsOr a.condition "ALERT" ++ "\n" ++
       "💰 *Price:* $" ++ jsOr a.price "N/A" ++ "\n" ++
       "🕐 *Time:* " ++ now ++ "\n\n")
      (by simp [Fmt.header, h, jsOr_none])
  · intro h
    apply strInfix_format_header
    exact strInfix_of_decomp _ _
      ("🚨 *TRADING ALERT: " ++ jsOr a.ticker "UNKNOWN" ++ "*\n\n")
      ("💰 *Price:* $" ++ jsOr a.price "N/A" ++ "\n" ++
       "🕐 *Time:* " ++ now ++ "\n\n")
      (by simp [Fmt.header, h, jsOr_none])
  · intro h
    apply strInfix_format_header
    exact strInfix_of_decomp _ _
      ("🚨 *TRADING ALERT: " ++ jsOr a.ticker "UNKNOWN" ++ "*\n\n" ++
       "📊 *Condition:* " ++ jsOr a.condition "ALERT" ++ "\n")
      ("🕐 *Time:* " ++ now ++ "\n\n")
      (by simp [Fmt.header, h, jsOr_none])
  · intro s hs h
    apply strInfix_format_setup
    rw [hs]
    exact strInfix_of_decomp _ _ "✅ *SETUP FOUND*\n\n"
      ("🎯 *Entry:* $" ++ jsOr s.entry "N/A" ++ "\n" ++
       "🛑 *Stop:* $" ++ jsOr s.stop "N/A" ++ "\n" ++
       "💎 *TP1:* $" ++ jsOr s.tp1 "N/A" ++ "\n" ++
       "💎 *TP2:* $" ++ jsOr s.tp2 "N/A" ++ "\n" ++
       "📊 *R:R:* " ++ jsOr s.riskReward "N/A" ++ "\n" ++
       "📈 *Win Rate:* " ++ jsOr s.winRate "N/A" ++ "%\n")
      (by simp [Fmt.setupBlock, h, jsOr_none])
  · intro s hs h
    apply strInfix_format_setup
    rw [hs]
    exact strInfix_of_decomp _ _
      ("✅ *SETUP FOUND*\n\n" ++ "📈 *Type:* " ++ jsOr s.type "N/A" ++ "\n")
      ("🛑 *Stop:* $" ++ jsOr s.stop "N/A" ++ "\n" ++
       "💎 *TP1:* $" ++ jsOr s.tp1 "N/A" ++ "\n" ++
       "💎 *TP2:* $" ++ jsOr s.tp2 "N/A" ++ "\n" ++
       "📊 *R:R:* " ++ jsOr s.riskReward "N/A" ++ "\n" ++
       "📈 *Win Rate:* " ++ jsOr s.winRate "N/A" ++ "%\n")
      (by simp [Fmt.setupBlock, h, jsOr_none])
  · intro s hs h
    apply strInfix_format_setup
    rw [hs]
    exact strInfix_of_decomp _ _
      ("✅ *SETUP FOUND*\n\n" ++ "📈 *Type:* " ++ jsOr s.type "N/A" ++ "\n" ++
       "🎯 *Entry:* $" ++ jsOr s.entry "N/A" ++ "\n")
      ("💎 *TP1:* $" ++ jsOr s.tp1 "N/A" ++ "\n" ++
       "💎 *TP2:* $" ++ jsOr s.tp2 "N/A" ++ "\n" ++
       "📊 *R:R:* " ++ jsOr s.riskReward "N/A" ++ "\n" ++
       "📈 *Win Rate:* " ++ jsOr s.winRate "N/A" ++ "%\n")
      (by simp [Fmt.setupBlock, h, jsOr_none])
  · intro s hs h
    apply strInfix_format_setup
    rw [hs]
    exact strInfix_of_decomp _ _
      ("✅ *SETUP FOUND*\n\n" ++ "📈 *Type:* " ++ jsOr s.type "N/A" ++ "\n" ++
       "🎯 *Entry:* $" ++ jsOr s.entry "N/A" ++ "\n" ++
       "🛑 *Stop:* $" ++ jsOr s.stop "N/A" ++ "\n")
      ("💎 *TP2:* $" ++ jsOr s.tp2 "N/A" ++ "\n" ++
       "📊 *R:R:* " ++ jsOr s.riskReward "N/A" ++ "\n" ++
       "📈 *Win Rate:* " ++ jsOr s.winRate "N/A" ++ "%\n")
      (by simp [Fmt.setupBlock, h, jsOr_none])
  · intro s hs h
    apply strInfix_format_setup
    rw [hs]
    exact strInfix_of_decomp _ _
      ("✅ *SETUP FOUND*\n\n" ++ "📈 *Type:* " ++ jsOr s.type "N/A" ++ "\n" ++
       "🎯 *Entry:* $" ++ jsOr s.entry "N/A" ++ "\n" ++
       "🛑 *Stop:* $" ++ jsOr s.stop "N/A" ++ "\n" ++
       "💎 *TP1:* $" ++ jsOr s.tp1 "N/A" ++ "\n")
      ("📊 *R:R:* " ++ jsOr s.riskReward "N/A" ++ "\n" ++
       "📈 *Win Rate:* " ++ jsOr s.winRate "N/A" ++ "%\n")
      (by simp [Fmt.setupBlock, h, jsOr_none])
  · intro s hs h
    apply strInfix_format_setup
    rw [hs]
    exact strInfix_of_decomp _ _
      ("✅ *SETUP FOUND*\n\n" ++ "📈 *Type:* " ++ jsOr s.type "N/A" ++ "\n" ++
       "🎯 *Entry:* $" ++ jsOr s.entry "N/A" ++ "\n" ++
       "🛑 *Stop:* $" ++ jsOr s.stop "N/A" ++ "\n" ++
       "💎 *TP1:* $" ++ jsOr s.tp1 "N/A" ++ "\n" ++
       "💎 *TP2:* $" ++ jsOr s.tp2 "N/A" ++ "\n")
      ("📈 *Win Rate:* " ++ jsOr s.winRate "N/A" ++ "%\n")
      (by simp [Fmt.setupBlock, h, jsOr_none])
  · intro s hs h
    apply strInfix_format_setup
    rw [hs]
    exact strInfix_of_decomp _ _
      ("✅ *SETUP FOUND*\n\n" ++ "📈 *Type:* " ++ jsOr s.type "N/A" ++ "\n" ++
       "🎯 *Entry:* $" ++ jsOr s.entry "N/A" ++ "\n" ++
       "🛑 *Stop:* $" ++ jsOr s.stop "N/A" ++ "\n" ++
       "💎 *TP1:* $" ++ jsOr s.tp1 "N/A" ++ "\n" ++
       "💎 *TP2:* $" ++ jsOr s.tp2 "N/A" ++ "\n" ++
       "📊 *R:R:* " ++ jsOr s.riskReward "N/A" ++ "\n")
      ""
      (by simp [Fmt.setupBlock, h, jsOr_none])
  · intro i hi h
    apply strInfix_format_ind
    rw [hi]
    exact strInfix_of_decomp _ _ "\n📉 *Indicators:*\n"
      ("• Jewel Slow: " ++ jsOr i.jewelSlow "N/A" ++ "\n" ++
       "• MGM Momentum: " ++ jsOr i.mgmMomentum "N/A" ++ "\n" ++
       "• ADX: " ++ jsOr i.adx "N/A" ++ "\n")
      (by simp [Fmt.indicatorBlock, h, jsOr_none])
  · intro i hi h
    apply strInfix_format_ind
    rw [hi]
    exact strInfix_of_decomp _ _
      ("\n📉 *Indicators:*\n" ++ "• Jewel Fast: " ++ jsOr i.jewelFast "N/A" ++ "\n")
      ("• MGM Momentum: " ++ jsOr i.mgmMomentum "N/A" ++ "\n" ++
       "• ADX: " ++ jsOr i.adx "N/A" ++ "\n")
      (by simp [Fmt.indicatorBlock, h, jsOr_none])
  · intro i hi h
    apply strInfix_format_ind
    rw [hi]
    exact strInfix_of_decomp _ _
      ("\n📉 *Indicators:*\n" ++ "• Jewel Fast: " ++ jsOr i.jewelFast "N/A" ++ "\n" ++
       "• Jewel Slow: " ++ jsOr i.jewelSlow "N/A" ++ "\n")
      ("• ADX: " ++ jsOr i.adx "N/A" ++ "\n")
      (by simp [Fmt.indicatorBlock, h, jsOr_none])
  · intro i hi h
    apply strInfix_format_ind
    rw [hi]
    exact strInfix_of_decomp _ _
      ("\n📉 *Indicators:*\n" ++ "• Jewel Fast: " ++ jsOr i.jewelFast "N/A" ++ "\n" ++
       "• Jewel Slow: " ++ jsOr i.jewelSlow "N/A" ++ "\n" ++
       "• MGM Momentum: " ++ jsOr i.mgmMomentum "N/A" ++ "\n")
      ""
      (by simp [Fmt.indicatorBlock, h, jsOr_none])

theorem c7_witness :
    strInfix "🚨 *TRADING ALERT: UNKNOWN*\n\n" (formatAnalysisMessage {} none "T") :=
  (c7_formatting_never_fails {} {} none "T").2.2.2.1 rfl

end TradingWebhook
